import Mathlib

/-!
Verification of the rocksplicator per-shard replication engine
(`src/rocksdb_replicator/rocksdb_replicator.cpp` and its spec).

The registry facade (`RocksDBReplicator::addDB/removeDB/write`) is embedded
directly from `rocksdb_replicator.cpp`.  The per-shard `ReplicatedDB` state
machine (write path, mode-2 ack waiting, pull loop) and the concurrent map
`db_map_` are code of the repository whose sources are not available here,
only their callers and tests; those definitions are modelled from the spec
and marked as such in their doc comments.
-/

namespace Replicator

/-- Replica roles, from the spec data model and the `ReplicaRole` enum used in
`rocksdb_replicator.cpp`. -/
inductive ReplicaRole where
  | LEADER
  | FOLLOWER
  | OBSERVER
deriving DecidableEq, Repr

/-- Return codes of the engine API, from the `ReturnCode` values used in
`rocksdb_replicator.cpp` and the tests. -/
inductive ReturnCode where
  | OK
  | DB_NOT_FOUND
  | DB_PRE_EXIST
  | WRITE_TO_SLAVE
  | WRITE_ERROR
deriving DecidableEq, Repr

/-- The status returned by `ReplicatedDB::Write` (rocksdb::Status in the
source): either ok, or a timed-out status carrying a message. -/
inductive Status where
  | ok
  | timedOut (msg : String)
deriving DecidableEq, Repr

/-- `Status::ok()` of the source. -/
def Status.isOk : Status → Bool
  | Status.ok => true
  | Status.timedOut _ => false

/-- Modelled from the spec: the Store Adapter (spec 4.1).  Only the sequence
counter is relevant to the claims: `latest_seq()` is the last durable
sequence, 0 if empty. -/
structure Store where
  latest_seq : Nat
deriving DecidableEq, Repr

/-- Modelled from the spec: `write(batch, opts) -> seq` on the Store Adapter
(spec 4.1).  A batch containing `k` operations advances the sequence by `k`;
the returned value is the last sequence assigned to the batch's writes. -/
def Store.write (s : Store) (k : Nat) : Store × Nat :=
  ({ latest_seq := s.latest_seq + k }, s.latest_seq + k)

/-- The process-wide configuration (spec data model, `ReplicatorConfig`),
mirroring the gflags declared in the source and tests. -/
structure ReplicatorConfig where
  replication_mode : Nat
  timeout_ms : Nat
  timeout_degraded_ms : Nat
  consecutive_ack_timeout_before_degradation : Nat
  reset_upstream_on_empty_updates_from_non_leader : Bool
  max_consecutive_no_updates_before_upstream_reset : Nat
deriving DecidableEq, Repr

/-- The per-shard `ReplicatedDB` state (spec data model; fields named after
the members read by the tests: `role_`, `current_replicator_timeout_ms_`,
`pullFromUpstreamNoUpdates_`, `resetUpstreamAttempts_`). -/
structure ReplicatedDB where
  db_name : String
  role : ReplicaRole
  upstream_addr : String
  store : Store
  current_seq : Nat
  current_replicator_timeout_ms : Nat
  consecutive_ack_timeouts : Nat
  pullFromUpstreamNoUpdates : Nat
  resetUpstreamAttempts : Nat
deriving DecidableEq, Repr

/-- Modelled from the spec: construction of a `ReplicatedDB` (the constructor
called by `RocksDBReplicator::addDB`): the sequence cursor starts at the
store's `latest_seq()`, the ack timeout starts at `timeout_ms` (normal), and
all counters start at 0. -/
def ReplicatedDB.init (cfg : ReplicatorConfig) (db_name : String)
    (role : ReplicaRole) (upstream_addr : String) (store : Store) :
    ReplicatedDB :=
  { db_name := db_name
    role := role
    upstream_addr := upstream_addr
    store := store
    current_seq := store.latest_seq
    current_replicator_timeout_ms := cfg.timeout_ms
    consecutive_ack_timeouts := 0
    pullFromUpstreamNoUpdates := 0
    resetUpstreamAttempts := 0 }

/-- Modelled from the spec: an acknowledgement event visible to a mode-2
waiter (spec 4.4.3): the pulling peer's role, the sequence it has applied
through, and its arrival time (ms after the write registered its waiter). -/
structure Ack where
  role : ReplicaRole
  acked_seq : Nat
  arrival_ms : Nat
deriving DecidableEq, Repr

/-- Modelled from the spec: whether an ack unblocks the waiter registered for
`seq` under ack deadline `timeout_ms` (spec 4.4.3 and 4.4.1): the peer must
be a Follower (Observer acks are discarded), must have applied through a
sequence `≥ seq`, and must arrive within the deadline. -/
def ackUnblocks (timeout_ms seq : Nat) (a : Ack) : Bool :=
  a.role == ReplicaRole.FOLLOWER
    && decide (seq ≤ a.acked_seq)
    && decide (a.arrival_ms ≤ timeout_ms)

/-- Modelled from the spec: `ReplicatedDB::Write` (spec 4.4.1), the function
the facade calls and the tests drive directly.  Throws (here: `Except.error`)
`WRITE_TO_SLAVE` when the role is not Leader; otherwise applies the batch of
`k` operations via the store.  In mode 2 it registers a waiter for the
resulting seq and suspends until some Follower ack covers that seq within
`current_replicator_timeout_ms` (the environment's acks are the `acks`
argument).  On ack: status ok, `consecutive_ack_timeouts` reset to 0 and, if
currently degraded, the timeout restored to `timeout_ms`.  On deadline:
status TimedOut "Failed to receive ack from follower",
`consecutive_ack_timeouts` incremented, and on reaching
`consecutive_ack_timeout_before_degradation` the timeout set to
`timeout_degraded_ms`. -/
def ReplicatedDB.Write (cfg : ReplicatorConfig) (db : ReplicatedDB) (k : Nat)
    (acks : List Ack) : Except ReturnCode (Status × ReplicatedDB) :=
  if db.role ≠ ReplicaRole.LEADER then
    Except.error ReturnCode.WRITE_TO_SLAVE
  else
    let res := db.store.write k
    let db1 : ReplicatedDB := { db with store := res.1, current_seq := res.2 }
    if cfg.replication_mode ≠ 2 then
      Except.ok (Status.ok, db1)
    else if acks.any (ackUnblocks db.current_replicator_timeout_ms res.2) then
      Except.ok (Status.ok,
        { db1 with
          consecutive_ack_timeouts := 0
          current_replicator_timeout_ms :=
            if db1.current_replicator_timeout_ms = cfg.timeout_degraded_ms
            then cfg.timeout_ms
            else db1.current_replicator_timeout_ms })
    else
      Except.ok (Status.timedOut "Failed to receive ack from follower",
        { db1 with
          consecutive_ack_timeouts := db1.consecutive_ack_timeouts + 1
          current_replicator_timeout_ms :=
            if cfg.consecutive_ack_timeout_before_degradation
                ≤ db1.consecutive_ack_timeouts + 1
            then cfg.timeout_degraded_ms
            else db1.current_replicator_timeout_ms })

/-- The upstream's response observed by one pull-loop iteration: a batch of
`k` payloads (`k = 0` is the empty batch), or a transport error. -/
inductive PullResponse where
  | updates (k : Nat)
  | transportError
deriving DecidableEq, Repr

/-- Modelled from the spec: one iteration of the pull loop (spec 4.4.2).
A non-empty batch is applied via the store and resets the no-updates
counter.  An empty batch increments the counter, and when
`reset_upstream_on_empty_updates_from_non_leader` is set, the role is
Follower and the counter has reached
`max_consecutive_no_updates_before_upstream_reset`, invokes the upstream
reset hook: `resetUpstreamAttempts` is incremented and the counter reset.
Observers never trigger the reset.  A transport error only backs off. -/
def pullIteration (cfg : ReplicatorConfig) (db : ReplicatedDB)
    (resp : PullResponse) : ReplicatedDB :=
  match resp with
  | PullResponse.transportError => db
  | PullResponse.updates k =>
    if k = 0 then
      let c := db.pullFromUpstreamNoUpdates + 1
      if cfg.reset_upstream_on_empty_updates_from_non_leader
          && db.role == ReplicaRole.FOLLOWER
          && decide (cfg.max_consecutive_no_updates_before_upstream_reset ≤ c)
      then
        { db with
          pullFromUpstreamNoUpdates := 0
          resetUpstreamAttempts := db.resetUpstreamAttempts + 1 }
      else
        { db with pullFromUpstreamNoUpdates := c }
    else
      let res := db.store.write k
      { db with
        store := res.1
        current_seq := res.2
        pullFromUpstreamNoUpdates := 0 }

/-- The pull loop as a fold of iterations over the responses it observes. -/
def pullLoop (cfg : ReplicatorConfig) (db : ReplicatedDB)
    (resps : List PullResponse) : ReplicatedDB :=
  resps.foldl (pullIteration cfg) db

/-- Modelled from the spec: the shard registry `db_map_` (spec 4.2), a map
from shard name to `ReplicatedDB`, as an association list. -/
abbrev DBMap := List (String × ReplicatedDB)

/-- Modelled from the spec: `get(name)`: the registered shard, if any. -/
def DBMap.get (m : DBMap) (name : String) : Option ReplicatedDB :=
  (List.find? (fun p => p.1 == name) m).map Prod.snd

/-- Modelled from the spec: `add(name, db)`: insert-if-absent; the Bool is
false iff a shard with the same name already exists (then the map is
unchanged). -/
def DBMap.add (m : DBMap) (name : String) (db : ReplicatedDB) :
    Bool × DBMap :=
  if (m.get name).isSome then (false, m) else (true, m ++ [(name, db)])

/-- Modelled from the spec: `remove(name)`: unpublish; the Bool is false iff
no shard with that name exists. -/
def DBMap.remove (m : DBMap) (name : String) : Bool × DBMap :=
  if (m.get name).isSome then
    (true, List.filter (fun p => !(p.1 == name)) m)
  else (false, m)

/-- Replace the registered state of shard `name` (the C++ mutates the shared
`ReplicatedDB` object in place; in the state-passing embedding the entry is
rebound). -/
def DBMap.set (m : DBMap) (name : String) (db : ReplicatedDB) : DBMap :=
  List.map (fun p => if p.1 == name then (name, db) else p) m

/-- Well-formedness of the registry: names are unique, so a name maps to at
most one `ReplicatedDB`. -/
abbrev DBMap.wf (m : DBMap) : Prop := (List.map Prod.fst m).Nodup

/-- Process state of `RocksDBReplicator`: the registry and the set of shards
handed to the cleaner (`cleaner_.addDB`). -/
structure RocksDBReplicator where
  db_map : DBMap
  cleaner : List ReplicatedDB

/-- The observable effects of one `addDB` call: the return code, the new
process state, what (if anything) was stored through the caller's
`replicated_db` out-pointer, and whether a pull loop was started for the new
`ReplicatedDB`. -/
structure AddDBEffects where
  code : ReturnCode
  state : RocksDBReplicator
  replicated_db_out : Option ReplicatedDB
  pullStarted : Bool

/-- `RocksDBReplicator::addDB` (rocksdb_replicator.cpp, lines 107-133):
construct the new `ReplicatedDB`; if `db_map_.add` fails return
`DB_PRE_EXIST` at once; otherwise write the out-pointer, start the pull loop
exactly for FOLLOWER and OBSERVER roles, hand the shard to the cleaner, and
return OK. -/
def RocksDBReplicator.addDB (cfg : ReplicatorConfig) (r : RocksDBReplicator)
    (db_name : String) (role : ReplicaRole) (upstream_addr : String)
    (store : Store) : AddDBEffects :=
  let new_db := ReplicatedDB.init cfg db_name role upstream_addr store
  let added := r.db_map.add db_name new_db
  if !added.1 then
    { code := ReturnCode.DB_PRE_EXIST
      state := r
      replicated_db_out := none
      pullStarted := false }
  else
    { code := ReturnCode.OK
      state := { db_map := added.2, cleaner := r.cleaner ++ [new_db] }
      replicated_db_out := some new_db
      pullStarted := role == ReplicaRole.FOLLOWER
        || role == ReplicaRole.OBSERVER }

/-- `kRemoveDBRefWaitMilliSec` (rocksdb_replicator.cpp, line 146). -/
def kRemoveDBRefWaitMilliSec : Nat := 200

/-- The observable effects of one `removeDB` call: the return code, the new
process state, and how many `kRemoveDBRefWaitMilliSec` sleeps the
weak-reference poll performed before returning. -/
structure RemoveDBEffects where
  code : ReturnCode
  state : RocksDBReplicator
  pollRounds : Nat

/-- `RocksDBReplicator::removeDB` (rocksdb_replicator.cpp, lines 135-154):
if `db_map_.remove` finds nothing, return `DB_NOT_FOUND`; otherwise the
shard is unpublished first, then the registry reference is dropped and the
call spins, sleeping `kRemoveDBRefWaitMilliSec` per round, while the weak
reference is still held.  `holders t` is the number of outstanding shared
holders observed at poll round `t`; the hypothesis that some round sees no
holder is exactly the loop's termination. -/
def RocksDBReplicator.removeDB (r : RocksDBReplicator) (db_name : String)
    (holders : Nat → Nat) (hdrain : ∃ t, holders t = 0) : RemoveDBEffects :=
  let removed := r.db_map.remove db_name
  if !removed.1 then
    { code := ReturnCode.DB_NOT_FOUND, state := r, pollRounds := 0 }
  else
    { code := ReturnCode.OK
      state := { r with db_map := removed.2 }
      pollRounds := Nat.find hdrain }

/-- `RocksDBReplicator::write` (rocksdb_replicator.cpp, lines 156-171):
registry miss returns `DB_NOT_FOUND`; otherwise `ReplicatedDB::Write` runs,
a thrown `ReturnCode` (write on a non-Leader) is caught and returned, and a
returned status maps to OK when ok and `WRITE_ERROR` otherwise. -/
def RocksDBReplicator.write (cfg : ReplicatorConfig) (r : RocksDBReplicator)
    (db_name : String) (k : Nat) (acks : List Ack) :
    ReturnCode × RocksDBReplicator :=
  match r.db_map.get db_name with
  | none => (ReturnCode.DB_NOT_FOUND, r)
  | some db =>
    match db.Write cfg k acks with
    | Except.error code => (code, r)
    | Except.ok (st, db') =>
      (if st.isOk then ReturnCode.OK else ReturnCode.WRITE_ERROR,
       { r with db_map := r.db_map.set db_name db' })

/-! Helper lemmas about the registry map. -/

lemma DBMap.get_nil (name : String) : DBMap.get [] name = none := rfl

lemma DBMap.get_cons (p : String × ReplicatedDB) (m : DBMap) (name : String) :
    DBMap.get (p :: m) name =
      if p.1 == name then some p.2 else DBMap.get m name := by
  by_cases h : p.1 == name
  · simp [DBMap.get, List.find?_cons_of_pos, h]
  · simp only [Bool.not_eq_true] at h
    simp [DBMap.get, List.find?_cons_of_neg, h]

lemma DBMap.get_set_ne (m : DBMap) (n x : String) (db : ReplicatedDB)
    (h : x ≠ n) : DBMap.get (m.set n db) x = m.get x := by
  induction m with
  | nil => rfl
  | cons p t ih =>
    have hstep : DBMap.set (p :: t) n db =
        (if p.1 == n then (n, db) else p) :: DBMap.set t n db := rfl
    rw [hstep, DBMap.get_cons, DBMap.get_cons]
    by_cases hp : p.1 = n
    · have hnx : (n == x) = false := by
        simp only [beq_eq_false_iff_ne]
        exact fun e => h e.symm
      simp [hp, hnx, ih, Ne.symm h]
    · simp only [beq_iff_eq, hp, if_false, ite_false]
      by_cases hx : p.1 = x
      · simp [hx]
      · simp [hx, ih]

lemma DBMap.get_remove_self (m : DBMap) (n : String) :
    DBMap.get (List.filter (fun p => !(p.1 == n)) m) n = none := by
  have hfind : List.find? (fun p => p.1 == n)
      (List.filter (fun p => !(p.1 == n)) m) = none := by
    rw [List.find?_eq_none]
    intro p hp
    have := List.of_mem_filter hp
    simpa using this
  simp [DBMap.get, hfind]

lemma DBMap.get_eq_none_iff (m : DBMap) (n : String) :
    m.get n = none ↔ n ∉ List.map Prod.fst m := by
  constructor
  · intro h hmem
    rcases List.mem_map.mp hmem with ⟨p, hp, he⟩
    have hfind : List.find? (fun p => p.1 == n) m = none := by
      cases hf : List.find? (fun p => p.1 == n) m with
      | none => rfl
      | some q => simp [DBMap.get, hf] at h
    have := (List.find?_eq_none.mp hfind) p hp
    simp only [beq_iff_eq] at this
    exact this he
  · intro h
    have hfind : List.find? (fun p => p.1 == n) m = none := by
      rw [List.find?_eq_none]
      intro p hp
      simp only [beq_iff_eq]
      intro e
      exact h (List.mem_map.mpr ⟨p, hp, e⟩)
    simp [DBMap.get, hfind]

lemma DBMap.wf_append_of_absent (m : DBMap) (n : String) (db : ReplicatedDB)
    (hwf : DBMap.wf m) (habs : m.get n = none) :
    DBMap.wf (m ++ [(n, db)]) := by
  have hnot : n ∉ List.map Prod.fst m := (DBMap.get_eq_none_iff m n).mp habs
  simp only [DBMap.wf, List.map_append, List.map_cons, List.map_nil]
  rw [List.nodup_append]
  refine ⟨hwf, List.nodup_singleton n, ?_⟩
  intro x hx hx'
  simp only [List.mem_singleton] at hx'
  subst hx'
  exact hnot hx

lemma DBMap.wf_at_most_one (m : DBMap) (n : String) (d1 d2 : ReplicatedDB)
    (hwf : DBMap.wf m) (h1 : (n, d1) ∈ m) (h2 : (n, d2) ∈ m) : d1 = d2 := by
  induction m with
  | nil => cases h1
  | cons p t ih =>
    simp only [DBMap.wf, List.map_cons, List.nodup_cons] at hwf
    rcases List.mem_cons.mp h1 with e1 | m1 <;>
      rcases List.mem_cons.mp h2 with e2 | m2
    · rw [← e1] at e2; exact congrArg Prod.snd e2.symm
    · exfalso
      apply hwf.1
      rw [← e1]
      exact List.mem_map.mpr ⟨(n, d2), m2, (congrArg Prod.fst e1).symm ▸ rfl⟩
    · exfalso
      apply hwf.1
      rw [← e2]
      exact List.mem_map.mpr ⟨(n, d1), m1, (congrArg Prod.fst e2).symm ▸ rfl⟩
    · exact ih hwf.2 m1 m2

/-! Concrete sample values, mirroring the unit-test setup, used by the
witness theorems. -/

/-- The configuration the mode-2 tests run under. -/
def cfgTest : ReplicatorConfig :=
  { replication_mode := 2
    timeout_ms := 100
    timeout_degraded_ms := 5
    consecutive_ack_timeout_before_degradation := 30
    reset_upstream_on_empty_updates_from_non_leader := true
    max_consecutive_no_updates_before_upstream_reset := 1 }

/-- A freshly added Leader shard. -/
def leaderTest : ReplicatedDB :=
  ReplicatedDB.init cfgTest "shard1" ReplicaRole.LEADER "uninitialized_addr"
    { latest_seq := 0 }

/-- A freshly added Follower shard. -/
def followerTest : ReplicatedDB :=
  ReplicatedDB.init cfgTest "slave" ReplicaRole.FOLLOWER "127.0.0.1"
    { latest_seq := 0 }

/-- A freshly added Observer shard. -/
def observerTest : ReplicatedDB :=
  ReplicatedDB.init cfgTest "shard" ReplicaRole.OBSERVER "127.0.0.1"
    { latest_seq := 0 }

/-- A process holding one Leader and one Follower shard. -/
def regTest : RocksDBReplicator :=
  { db_map := [("shard1", leaderTest), ("slave", followerTest)]
    cleaner := [leaderTest, followerTest] }

/-- A holder trace for the removal drain: the shared reference is still held
for two poll rounds and released afterwards. -/
def holdersTest : Nat → Nat := fun t => if t < 2 then 1 else 0

lemma holdersTest_drains : ∃ t, holdersTest t = 0 := ⟨2, by decide⟩

/-! Claim theorems. -/

/-- Claim C7: `addDB` is insert-if-absent.  It returns `DB_PRE_EXIST` exactly
when a shard with the same name is already registered in this process, `OK`
otherwise, and it preserves the registry invariant that a shard name maps to
at most one `ReplicatedDB` at any instant. -/
theorem addDB_insert_if_absent (cfg : ReplicatorConfig)
    (r : RocksDBReplicator) (name : String) (role : ReplicaRole)
    (ua : String) (store : Store) (hwf : DBMap.wf r.db_map) :
    ((RocksDBReplicator.addDB cfg r name role ua store).code
        = ReturnCode.DB_PRE_EXIST ↔ (r.db_map.get name).isSome)
    ∧ ((RocksDBReplicator.addDB cfg r name role ua store).code
        = ReturnCode.OK ↔ ¬ (r.db_map.get name).isSome)
    ∧ DBMap.wf (RocksDBReplicator.addDB cfg r name role ua store).state.db_map := by
  unfold RocksDBReplicator.addDB DBMap.add
  by_cases h : (r.db_map.get name).isSome
  · simp only [h, if_true, Bool.not_true]
    refine ⟨by simp, by simp, ?_⟩
    simpa using hwf
  · have hnone : r.db_map.get name = none := Option.not_isSome_iff_eq_none.mp h
    simp only [h, if_false, Bool.not_false]
    refine ⟨by simp [h], by simp [h], ?_⟩
    simpa using DBMap.wf_append_of_absent r.db_map name
      (ReplicatedDB.init cfg name role ua store) hwf hnone

/-- Witness for C7 at the test setup: re-adding the existing shard name
yields `DB_PRE_EXIST`. -/
theorem addDB_insert_if_absent_witness :
    (RocksDBReplicator.addDB cfgTest regTest "shard1" ReplicaRole.LEADER
        "uninitialized_addr" { latest_seq := 0 }).code
      = ReturnCode.DB_PRE_EXIST :=
  ((addDB_insert_if_absent cfgTest regTest "shard1" ReplicaRole.LEADER
      "uninitialized_addr" { latest_seq := 0 } (by decide)).1).mpr (by decide)

/-- Claim C10: a `DB_PRE_EXIST` failure of `addDB` has no observable side
effects: the registry and cleaner are unchanged, the caller's
`replicated_db` out-pointer is not written, and no pull loop is started for
the rejected `ReplicatedDB`. -/
theorem addDB_pre_exist_no_side_effects (cfg : ReplicatorConfig)
    (r : RocksDBReplicator) (name : String) (role : ReplicaRole)
    (ua : String) (store : Store)
    (h : (RocksDBReplicator.addDB cfg r name role ua store).code
      = ReturnCode.DB_PRE_EXIST) :
    (RocksDBReplicator.addDB cfg r name role ua store).state.db_map = r.db_map
    ∧ (RocksDBReplicator.addDB cfg r name role ua store).state.cleaner
        = r.cleaner
    ∧ (RocksDBReplicator.addDB cfg r name role ua store).replicated_db_out
        = none
    ∧ (RocksDBReplicator.addDB cfg r name role ua store).pullStarted
        = false := by
  unfold RocksDBReplicator.addDB DBMap.add at h ⊢
  by_cases hx : (r.db_map.get name).isSome
  · simp [hx]
  · have hx' : (r.db_map.get name).isSome = false := by simpa using hx
    rw [hx'] at h
    simp at h

/-- Witness for C10 at the test setup. -/
theorem addDB_pre_exist_no_side_effects_witness :
    (RocksDBReplicator.addDB cfgTest regTest "shard1" ReplicaRole.FOLLOWER
        "127.0.0.1" { latest_seq := 0 }).state.db_map = regTest.db_map
    ∧ (RocksDBReplicator.addDB cfgTest regTest "shard1" ReplicaRole.FOLLOWER
        "127.0.0.1" { latest_seq := 0 }).state.cleaner = regTest.cleaner
    ∧ (RocksDBReplicator.addDB cfgTest regTest "shard1" ReplicaRole.FOLLOWER
        "127.0.0.1" { latest_seq := 0 }).replicated_db_out = none
    ∧ (RocksDBReplicator.addDB cfgTest regTest "shard1" ReplicaRole.FOLLOWER
        "127.0.0.1" { latest_seq := 0 }).pullStarted = false :=
  addDB_pre_exist_no_side_effects cfgTest regTest "shard1"
    ReplicaRole.FOLLOWER "127.0.0.1" { latest_seq := 0 } (by decide)

/-- Claim C8: `removeDB` returns `DB_NOT_FOUND` exactly when the shard name
is absent from the registry; when present it first unpublishes the shard,
then spins in `kRemoveDBRefWaitMilliSec` (200 ms) sleeps while a shared
holder remains, and returns `OK` only at the first poll round with no
holder left. -/
theorem removeDB_not_found_or_drain (r : RocksDBReplicator) (name : String)
    (holders : Nat → Nat) (hdrain : ∃ t, holders t = 0) :
    ((RocksDBReplicator.removeDB r name holders hdrain).code
        = ReturnCode.DB_NOT_FOUND ↔ r.db_map.get name = none)
    ∧ (r.db_map.get name ≠ none →
        (RocksDBReplicator.removeDB r name holders hdrain).code
          = ReturnCode.OK
        ∧ (RocksDBReplicator.removeDB r name holders hdrain).state.db_map.get
            name = none
        ∧ holders (RocksDBReplicator.removeDB r name holders hdrain).pollRounds
            = 0
        ∧ (∀ t < (RocksDBReplicator.removeDB r name holders hdrain).pollRounds,
            holders t ≠ 0))
    ∧ kRemoveDBRefWaitMilliSec = 200 := by
  unfold RocksDBReplicator.removeDB DBMap.remove
  by_cases h : (r.db_map.get name).isSome
  · have hne : r.db_map.get name ≠ none := by
      intro e; rw [e] at h; simp at h
    simp only [h, if_true, Bool.not_true]
    refine ⟨by simpa using hne, fun _ => ⟨by simp, ?_, ?_, ?_⟩, rfl⟩
    · simpa using DBMap.get_remove_self r.db_map name
    · simpa using Nat.find_spec hdrain
    · intro t ht
      exact Nat.find_min hdrain ht
  · have hnone : r.db_map.get name = none := Option.not_isSome_iff_eq_none.mp h
    simp only [h, if_false, Bool.not_false]
    exact ⟨by simp [hnone], fun hc => absurd hnone hc, rfl⟩

/-- Witness for C8 at the test setup: removing the registered follower shard
succeeds after the holder trace drains. -/
theorem removeDB_not_found_or_drain_witness :
    (RocksDBReplicator.removeDB regTest "slave" holdersTest
        holdersTest_drains).code = ReturnCode.OK
    ∧ holdersTest (RocksDBReplicator.removeDB regTest "slave" holdersTest
        holdersTest_drains).pollRounds = 0 := by
  have h := (removeDB_not_found_or_drain regTest "slave" holdersTest
    holdersTest_drains).2.1 (by decide)
  exact ⟨h.1, h.2.2.1⟩

/-- Claim C4: writing to a shard whose role is not Leader fails with
`WRITE_TO_SLAVE`: `ReplicatedDB::Write` throws the `ReturnCode` and
`RocksDBReplicator::write` catches and returns it; writing to a missing
shard name returns `DB_NOT_FOUND`. -/
theorem write_non_leader_and_missing (cfg : ReplicatorConfig)
    (r : RocksDBReplicator) (name : String) (k : Nat) (acks : List Ack)
    (db : ReplicatedDB)
    (hget : r.db_map.get name = some db)
    (hrole : db.role ≠ ReplicaRole.LEADER) :
    ReplicatedDB.Write cfg db k acks = Except.error ReturnCode.WRITE_TO_SLAVE
    ∧ (RocksDBReplicator.write cfg r name k acks).1
        = ReturnCode.WRITE_TO_SLAVE
    ∧ (∀ r' : RocksDBReplicator, r'.db_map.get name = none →
        (RocksDBReplicator.write cfg r' name k acks).1
          = ReturnCode.DB_NOT_FOUND) := by
  have hw : ReplicatedDB.Write cfg db k acks
      = Except.error ReturnCode.WRITE_TO_SLAVE := by
    unfold ReplicatedDB.Write
    simp [hrole]
  refine ⟨hw, ?_, ?_⟩
  · unfold RocksDBReplicator.write
    simp [hget, hw]
  · intro r' h'
    unfold RocksDBReplicator.write
    simp [h']

/-- Witness for C4 at the test setup: writing to the follower shard is
rejected with `WRITE_TO_SLAVE`, and writing to an unknown name returns
`DB_NOT_FOUND`. -/
theorem write_non_leader_and_missing_witness :
    (RocksDBReplicator.write cfgTest regTest "slave" 1 []).1
        = ReturnCode.WRITE_TO_SLAVE
    ∧ (RocksDBReplicator.write cfgTest { db_map := [], cleaner := [] }
        "slave" 1 []).1 = ReturnCode.DB_NOT_FOUND := by
  have h := write_non_leader_and_missing cfgTest regTest "slave" 1 []
    followerTest (by decide) (by decide)
  exact ⟨h.2.1, h.2.2 { db_map := [], cleaner := [] } (by decide)⟩

/-- The status component of a non-throwing `ReplicatedDB::Write` (the value
the tests compare against `Status::ok()` and `Status::TimedOut`). -/
def writeStatus (cfg : ReplicatorConfig) (db : ReplicatedDB) (k : Nat)
    (acks : List Ack) : Option Status :=
  match db.Write cfg k acks with
  | Except.ok (st, _) => some st
  | Except.error _ => none

lemma any_ackUnblocks_iff (db : ReplicatedDB) (k : Nat) (acks : List Ack) :
    (acks.any (ackUnblocks db.current_replicator_timeout_ms
        (db.store.latest_seq + k)) = true)
      ↔ ∃ a ∈ acks, a.role = ReplicaRole.FOLLOWER
          ∧ db.store.latest_seq + k ≤ a.acked_seq
          ∧ a.arrival_ms ≤ db.current_replicator_timeout_ms := by
  simp [List.any_eq_true, ackUnblocks, and_assoc]

/-- Claim C1: for a mode-2 write on a Leader, if no Follower acknowledges
reaching the write's sequence within `current_replicator_timeout_ms`, the
write returns TimedOut with message "Failed to receive ack from follower";
if some Follower does acknowledge within the deadline, it returns success. -/
theorem mode2_write_ack_or_timeout (cfg : ReplicatorConfig)
    (db : ReplicatedDB) (k : Nat) (acks : List Ack)
    (hrole : db.role = ReplicaRole.LEADER)
    (hmode : cfg.replication_mode = 2) :
    ((¬ ∃ a ∈ acks, a.role = ReplicaRole.FOLLOWER
        ∧ db.store.latest_seq + k ≤ a.acked_seq
        ∧ a.arrival_ms ≤ db.current_replicator_timeout_ms) →
      writeStatus cfg db k acks
        = some (Status.timedOut "Failed to receive ack from follower"))
    ∧ ((∃ a ∈ acks, a.role = ReplicaRole.FOLLOWER
        ∧ db.store.latest_seq + k ≤ a.acked_seq
        ∧ a.arrival_ms ≤ db.current_replicator_timeout_ms) →
      writeStatus cfg db k acks = some Status.ok) := by
  constructor
  · intro hno
    have hfalse : acks.any (ackUnblocks db.current_replicator_timeout_ms
        (db.store.latest_seq + k)) = false := by
      simp only [Bool.eq_false_iff, ne_eq, any_ackUnblocks_iff]
      exact hno
    unfold writeStatus ReplicatedDB.Write
    simp [hrole, hmode, Store.write, hfalse]
  · intro hyes
    have htrue : acks.any (ackUnblocks db.current_replicator_timeout_ms
        (db.store.latest_seq + k)) = true :=
      (any_ackUnblocks_iff db k acks).mpr hyes
    unfold writeStatus ReplicatedDB.Write
    simp [hrole, hmode, Store.write, htrue]

/-- Witness for C1: the fresh Leader with no acks times out; with a Follower
ack covering the sequence within the deadline it succeeds. -/
theorem mode2_write_ack_or_timeout_witness :
    writeStatus cfgTest leaderTest 1 []
      = some (Status.timedOut "Failed to receive ack from follower")
    ∧ writeStatus cfgTest leaderTest 1
        [{ role := ReplicaRole.FOLLOWER, acked_seq := 1, arrival_ms := 50 }]
      = some Status.ok := by
  constructor
  · exact (mode2_write_ack_or_timeout cfgTest leaderTest 1 [] rfl rfl).1
      (by simp)
  · exact (mode2_write_ack_or_timeout cfgTest leaderTest 1
      [{ role := ReplicaRole.FOLLOWER, acked_seq := 1, arrival_ms := 50 }]
      rfl rfl).2 ⟨_, List.mem_singleton_self _, rfl, by decide, by decide⟩

/-- Claim C3: an Observer acknowledgement never completes a mode-2 waiter:
when every ack available to a Leader's mode-2 write comes from Observers the
write times out no matter how far those Observers caught up, while a
Follower ack covering the sequence within the deadline unblocks it. -/
theorem observer_acks_never_unblock (cfg : ReplicatorConfig)
    (db : ReplicatedDB) (k : Nat)
    (hrole : db.role = ReplicaRole.LEADER)
    (hmode : cfg.replication_mode = 2) :
    (∀ acks, (∀ a ∈ acks, a.role = ReplicaRole.OBSERVER) →
      writeStatus cfg db k acks
        = some (Status.timedOut "Failed to receive ack from follower"))
    ∧ (∀ acks (a : Ack), a ∈ acks → a.role = ReplicaRole.FOLLOWER →
        db.store.latest_seq + k ≤ a.acked_seq →
        a.arrival_ms ≤ db.current_replicator_timeout_ms →
      writeStatus cfg db k acks = some Status.ok) := by
  constructor
  · intro acks hobs
    have hfalse : acks.any (ackUnblocks db.current_replicator_timeout_ms
        (db.store.latest_seq + k)) = false := by
      simp only [List.any_eq_false]
      intro a ha
      have hr := hobs a ha
      simp [ackUnblocks, hr]
    unfold writeStatus ReplicatedDB.Write
    simp [hrole, hmode, Store.write, hfalse]
  · intro acks a ha hf hseq harr
    have htrue : acks.any (ackUnblocks db.current_replicator_timeout_ms
        (db.store.latest_seq + k)) = true :=
      List.any_eq_true.mpr ⟨a, ha, by simp [ackUnblocks, hf, hseq, harr]⟩
    unfold writeStatus ReplicatedDB.Write
    simp [hrole, hmode, Store.write, htrue]

/-- Witness for C3: an Observer ack arbitrarily far ahead does not unblock
the write, a Follower ack does. -/
theorem observer_acks_never_unblock_witness :
    writeStatus cfgTest leaderTest 1
        [{ role := ReplicaRole.OBSERVER, acked_seq := 1000, arrival_ms := 0 }]
      = some (Status.timedOut "Failed to receive ack from follower")
    ∧ writeStatus cfgTest leaderTest 1
        [{ role := ReplicaRole.FOLLOWER, acked_seq := 1, arrival_ms := 0 }]
      = some Status.ok := by
  constructor
  · exact (observer_acks_never_unblock cfgTest leaderTest 1 rfl rfl).1 _
      (by intro a ha; simp at ha; simp [ha])
  · exact (observer_acks_never_unblock cfgTest leaderTest 1 rfl rfl).2 _
      { role := ReplicaRole.FOLLOWER, acked_seq := 1, arrival_ms := 0 }
      (List.mem_singleton_self _) rfl (by decide) (by decide)

/-- Claim C5: a successful write of a batch with k operations advances the
store's sequence by exactly k, and immediately afterwards the shard's
`current_seq` equals the store's `latest_seq`. -/
theorem write_advances_seq_by_k (cfg : ReplicatorConfig)
    (db : ReplicatedDB) (k : Nat) (acks : List Ack) (db' : ReplicatedDB)
    (h : ReplicatedDB.Write cfg db k acks = Except.ok (Status.ok, db')) :
    db'.store.latest_seq = db.store.latest_seq + k
    ∧ db'.current_seq = db'.store.latest_seq := by
  unfold ReplicatedDB.Write at h
  simp only [Store.write] at h
  split_ifs at h <;>
    first
      | exact (Except.noConfusion h)
      | (injection h with hpair
         injection hpair with hst hdb
         first
           | exact (Status.noConfusion hst)
           | (subst hdb; exact ⟨rfl, rfl⟩))

/-- A mode-2 Follower ack arriving within the normal deadline. -/
def ackFollower : Ack :=
  { role := ReplicaRole.FOLLOWER, acked_seq := 2, arrival_ms := 50 }

/-- The Leader shard after one acknowledged two-operation write. -/
def leaderAfterOk : ReplicatedDB :=
  { leaderTest with store := { latest_seq := 2 }, current_seq := 2 }

/-- Witness for C5: a two-put batch on the fresh Leader advances the
sequence from 0 to 2 and sets `current_seq` to it. -/
theorem write_advances_seq_by_k_witness :
    leaderAfterOk.store.latest_seq = leaderTest.store.latest_seq + 2
    ∧ leaderAfterOk.current_seq = leaderAfterOk.store.latest_seq :=
  write_advances_seq_by_k cfgTest leaderTest 2 [ackFollower] leaderAfterOk
    rfl

/-- Claim C9: a mode-2 write that returns TimedOut has nevertheless durably
applied its batch: the store's sequence still advanced by exactly k and the
cursor matches it; only the follower ack is missing. -/
theorem mode2_timedout_write_applied (cfg : ReplicatorConfig)
    (db : ReplicatedDB) (k : Nat) (acks : List Ack) (msg : String)
    (db' : ReplicatedDB)
    (h : ReplicatedDB.Write cfg db k acks
      = Except.ok (Status.timedOut msg, db')) :
    db'.store.latest_seq = db.store.latest_seq + k
    ∧ db'.current_seq = db'.store.latest_seq := by
  unfold ReplicatedDB.Write at h
  simp only [Store.write] at h
  split_ifs at h <;>
    first
      | exact (Except.noConfusion h)
      | (injection h with hpair
         injection hpair with hst hdb
         first
           | exact (Status.noConfusion hst)
           | (subst hdb; exact ⟨rfl, rfl⟩))

/-- The Leader shard after one unacknowledged single-put mode-2 write. -/
def leaderAfterTimeout : ReplicatedDB :=
  { leaderTest with
    store := { latest_seq := 1 }
    current_seq := 1
    consecutive_ack_timeouts := 1 }

/-- Witness for C9: the timed-out write on the fresh Leader still advanced
the sequence from 0 to 1. -/
theorem mode2_timedout_write_applied_witness :
    leaderAfterTimeout.store.latest_seq = leaderTest.store.latest_seq + 1
    ∧ leaderAfterTimeout.current_seq = leaderAfterTimeout.store.latest_seq :=
  mode2_timedout_write_applied cfgTest leaderTest 1 []
    "Failed to receive ack from follower" leaderAfterTimeout rfl

lemma write_other_shard_unchanged (cfg : ReplicatorConfig)
    (r : RocksDBReplicator) (n m : String) (k : Nat) (acks : List Ack)
    (hne : m ≠ n) :
    DBMap.get (RocksDBReplicator.write cfg r n k acks).2.db_map m
      = r.db_map.get m := by
  unfold RocksDBReplicator.write
  cases hg : r.db_map.get n with
  | none => simp [hg]
  | some db =>
    cases hw : db.Write cfg k acks with
    | error code => simp [hg, hw]
    | ok p =>
      cases p with
      | mk st db' =>
        simp [hg, hw, DBMap.get_set_ne r.db_map n m db' hne]

/-- Claim C2: the per-shard ack-timeout state machine.
`current_replicator_timeout_ms` stays in {`timeout_ms`, `timeout_degraded_ms`};
it moves normal→degraded only on a timed-out mode-2 write whose
`consecutive_ack_timeouts` increment reaches
`consecutive_ack_timeout_before_degradation`, moves degraded→normal (with the
counter reset to 0) only on a write that received a successful Follower ack,
a successful mode-2 write always resets the counter and restores the normal
timeout, and a write to one shard never changes another shard's registry
entry. -/
theorem timeout_degradation_state_machine (cfg : ReplicatorConfig)
    (db : ReplicatedDB) (k : Nat) (acks : List Ack) (st : Status)
    (db' : ReplicatedDB)
    (hinv : db.current_replicator_timeout_ms = cfg.timeout_ms ∨
            db.current_replicator_timeout_ms = cfg.timeout_degraded_ms)
    (h : ReplicatedDB.Write cfg db k acks = Except.ok (st, db')) :
    (db'.current_replicator_timeout_ms = cfg.timeout_ms ∨
     db'.current_replicator_timeout_ms = cfg.timeout_degraded_ms)
    ∧ (db.current_replicator_timeout_ms = cfg.timeout_ms →
       db'.current_replicator_timeout_ms ≠ db.current_replicator_timeout_ms →
       st = Status.timedOut "Failed to receive ack from follower"
       ∧ db'.consecutive_ack_timeouts = db.consecutive_ack_timeouts + 1
       ∧ cfg.consecutive_ack_timeout_before_degradation
           ≤ db'.consecutive_ack_timeouts
       ∧ db'.current_replicator_timeout_ms = cfg.timeout_degraded_ms)
    ∧ (db.current_replicator_timeout_ms = cfg.timeout_degraded_ms →
       db'.current_replicator_timeout_ms ≠ db.current_replicator_timeout_ms →
       st = Status.ok ∧ db'.consecutive_ack_timeouts = 0
       ∧ db'.current_replicator_timeout_ms = cfg.timeout_ms)
    ∧ (cfg.replication_mode = 2 → st = Status.ok →
       db'.consecutive_ack_timeouts = 0
       ∧ db'.current_replicator_timeout_ms = cfg.timeout_ms)
    ∧ (∀ (r : RocksDBReplicator) (n m : String) (k' : Nat)
        (acks' : List Ack), m ≠ n →
        DBMap.get (RocksDBReplicator.write cfg r n k' acks').2.db_map m
          = r.db_map.get m) := by
  unfold ReplicatedDB.Write at h
  simp only [Store.write] at h
  by_cases hr : db.role = ReplicaRole.LEADER
  case neg =>
    rw [if_pos hr] at h
    exact (Except.noConfusion h)
  case pos =>
  rw [if_neg (fun hc => hc hr)] at h
  by_cases hm : cfg.replication_mode = 2
  case neg =>
    rw [if_pos hm] at h
    injection h with hpair
    injection hpair with hst hdb
    subst hst; subst hdb
    refine ⟨hinv, ?_, ?_, ?_, ?_⟩
    · intro _ hne; exact absurd rfl hne
    · intro _ hne; exact absurd rfl hne
    · intro hm2 _; exact absurd hm2 hm
    · intro r n m k' acks' hne
      exact write_other_shard_unchanged cfg r n m k' acks' hne
  case pos =>
  rw [if_neg (fun hc => hc hm)] at h
  by_cases hack : acks.any (ackUnblocks db.current_replicator_timeout_ms
      (db.store.latest_seq + k)) = true
  case pos =>
    rw [if_pos hack] at h
    by_cases hdeg : db.current_replicator_timeout_ms
        = cfg.timeout_degraded_ms
    case pos =>
      rw [if_pos hdeg] at h
      injection h with hpair
      injection hpair with hst hdb
      subst hst; subst hdb
      refine ⟨Or.inl rfl, ?_, ?_, ?_, ?_⟩
      · intro hp hne; exact absurd hp.symm hne
      · intro _ _; exact ⟨rfl, rfl, rfl⟩
      · intro _ _; exact ⟨rfl, rfl⟩
      · intro r n m k' acks' hne
        exact write_other_shard_unchanged cfg r n m k' acks' hne
    case neg =>
      rw [if_neg hdeg] at h
      injection h with hpair
      injection hpair with hst hdb
      subst hst; subst hdb
      refine ⟨hinv, ?_, ?_, ?_, ?_⟩
      · intro _ hne; exact absurd rfl hne
      · intro _ hne; exact absurd rfl hne
      · intro _ _; exact ⟨rfl, hinv.resolve_right hdeg⟩
      · intro r n m k' acks' hne
        exact write_other_shard_unchanged cfg r n m k' acks' hne
  case neg =>
    rw [if_neg hack] at h
    by_cases hth : cfg.consecutive_ack_timeout_before_degradation
        ≤ db.consecutive_ack_timeouts + 1
    case pos =>
      rw [if_pos hth] at h
      injection h with hpair
      injection hpair with hst hdb
      subst hst; subst hdb
      refine ⟨Or.inr rfl, ?_, ?_, ?_, ?_⟩
      · intro _ _; exact ⟨rfl, rfl, hth, rfl⟩
      · intro hp hne; exact absurd hp.symm hne
      · intro _ hok; exact Status.noConfusion hok
      · intro r n m k' acks' hne
        exact write_other_shard_unchanged cfg r n m k' acks' hne
    case neg =>
      rw [if_neg hth] at h
      injection h with hpair
      injection hpair with hst hdb
      subst hst; subst hdb
      refine ⟨hinv, ?_, ?_, ?_, ?_⟩
      · intro _ hne; exact absurd rfl hne
      · intro _ hne; exact absurd rfl hne
      · intro _ hok; exact Status.noConfusion hok
      · intro r n m k' acks' hne
        exact write_other_shard_unchanged cfg r n m k' acks' hne

/-- Witness for C2: the first unacknowledged mode-2 write on the fresh
Leader leaves the timeout in {normal, degraded}. -/
theorem timeout_degradation_state_machine_witness :
    leaderAfterTimeout.current_replicator_timeout_ms = cfgTest.timeout_ms ∨
    leaderAfterTimeout.current_replicator_timeout_ms
      = cfgTest.timeout_degraded_ms :=
  (timeout_degradation_state_machine cfgTest leaderTest 1 []
    (Status.timedOut "Failed to receive ack from follower")
    leaderAfterTimeout (Or.inl rfl) rfl).1

lemma pullIteration_role (cfg : ReplicatorConfig) (db : ReplicatedDB)
    (resp : PullResponse) : (pullIteration cfg db resp).role = db.role := by
  cases resp with
  | transportError => rfl
  | updates k =>
    simp only [pullIteration]
    split_ifs <;> rfl

lemma pullIteration_observer_attempts (cfg : ReplicatorConfig)
    (db : ReplicatedDB) (resp : PullResponse)
    (hobs : db.role = ReplicaRole.OBSERVER) :
    (pullIteration cfg db resp).resetUpstreamAttempts
      = db.resetUpstreamAttempts := by
  have hrf : (db.role == ReplicaRole.FOLLOWER) = false := by simp [hobs]
  cases resp with
  | transportError => rfl
  | updates k =>
    simp only [pullIteration]
    split_ifs with hk hb
    · rw [hrf] at hb; simp at hb
    · rfl
    · rfl

lemma pullLoop_observer_attempts (cfg : ReplicatorConfig)
    (resps : List PullResponse) :
    ∀ db : ReplicatedDB, db.role = ReplicaRole.OBSERVER →
      (pullLoop cfg db resps).resetUpstreamAttempts
        = db.resetUpstreamAttempts := by
  induction resps with
  | nil => intro db _; rfl
  | cons rsp rest ih =>
    intro db hobs
    have hrole : (pullIteration cfg db rsp).role = ReplicaRole.OBSERVER := by
      rw [pullIteration_role]; exact hobs
    calc (pullLoop cfg db (rsp :: rest)).resetUpstreamAttempts
        = (pullLoop cfg (pullIteration cfg db rsp) rest).resetUpstreamAttempts
          := rfl
      _ = (pullIteration cfg db rsp).resetUpstreamAttempts := ih _ hrole
      _ = db.resetUpstreamAttempts :=
          pullIteration_observer_attempts cfg db rsp hobs

lemma Write_preserves_attempts (cfg : ReplicatorConfig) (db : ReplicatedDB)
    (k : Nat) (acks : List Ack) (st : Status) (db' : ReplicatedDB)
    (h : ReplicatedDB.Write cfg db k acks = Except.ok (st, db')) :
    db'.resetUpstreamAttempts = db.resetUpstreamAttempts := by
  unfold ReplicatedDB.Write at h
  simp only [Store.write] at h
  split_ifs at h <;>
    first
      | exact (Except.noConfusion h)
      | (injection h with hpair
         injection hpair with hst hdb
         subst hdb
         rfl)

/-- Claim C6: the pull loop increments `resetUpstreamAttempts` (invoking the
upstream-reset hook) exactly on an empty response when
`reset_upstream_on_empty_updates_from_non_leader` is set, the role is
Follower and `consecutive_no_updates` has reached
`max_consecutive_no_updates_before_upstream_reset`; Observers never trigger
a reset over any run of the pull loop, `addDB` never starts a pull loop for
a Leader, a fresh shard starts with 0 attempts, and the write path never
changes the counter — so it stays 0 forever on Leaders and Observers. -/
theorem upstream_reset_gating (cfg : ReplicatorConfig) (db : ReplicatedDB)
    (resp : PullResponse) :
    ((cfg.reset_upstream_on_empty_updates_from_non_leader = true
        ∧ db.role = ReplicaRole.FOLLOWER
        ∧ resp = PullResponse.updates 0
        ∧ cfg.max_consecutive_no_updates_before_upstream_reset
            ≤ db.pullFromUpstreamNoUpdates + 1) →
      (pullIteration cfg db resp).resetUpstreamAttempts
        = db.resetUpstreamAttempts + 1)
    ∧ (¬ (cfg.reset_upstream_on_empty_updates_from_non_leader = true
        ∧ db.role = ReplicaRole.FOLLOWER
        ∧ resp = PullResponse.updates 0
        ∧ cfg.max_consecutive_no_updates_before_upstream_reset
            ≤ db.pullFromUpstreamNoUpdates + 1) →
      (pullIteration cfg db resp).resetUpstreamAttempts
        = db.resetUpstreamAttempts)
    ∧ (db.role = ReplicaRole.OBSERVER → ∀ resps : List PullResponse,
        (pullLoop cfg db resps).resetUpstreamAttempts
          = db.resetUpstreamAttempts)
    ∧ (∀ (r : RocksDBReplicator) (name ua : String) (store : Store),
        (RocksDBReplicator.addDB cfg r name ReplicaRole.LEADER ua
          store).pullStarted = false)
    ∧ (∀ (name ua : String) (role : ReplicaRole) (store : Store),
        (ReplicatedDB.init cfg name role ua store).resetUpstreamAttempts = 0)
    ∧ (∀ (k : Nat) (acks : List Ack) (st : Status) (db' : ReplicatedDB),
        ReplicatedDB.Write cfg db k acks = Except.ok (st, db') →
        db'.resetUpstreamAttempts = db.resetUpstreamAttempts) := by
  refine ⟨?_, ?_, ?_, ?_, ?_, ?_⟩
  · rintro ⟨hflag, hrole, rfl, hth⟩
    have hb : (cfg.reset_upstream_on_empty_updates_from_non_leader
        && db.role == ReplicaRole.FOLLOWER
        && decide (cfg.max_consecutive_no_updates_before_upstream_reset
            ≤ db.pullFromUpstreamNoUpdates + 1)) = true := by
      simp [hflag, hrole, hth]
    unfold pullIteration
    simp [hb]
  · intro hnot
    cases resp with
    | transportError => rfl
    | updates k =>
      by_cases hk : k = 0
      · subst hk
        have hb : (cfg.reset_upstream_on_empty_updates_from_non_leader
            && db.role == ReplicaRole.FOLLOWER
            && decide (cfg.max_consecutive_no_updates_before_upstream_reset
                ≤ db.pullFromUpstreamNoUpdates + 1)) = false := by
          rw [Bool.eq_false_iff]
          intro hb'
          have hcomp : (cfg.reset_upstream_on_empty_updates_from_non_leader
                = true ∧ db.role = ReplicaRole.FOLLOWER)
              ∧ cfg.max_consecutive_no_updates_before_upstream_reset
                  ≤ db.pullFromUpstreamNoUpdates + 1 := by
            simpa [Bool.and_eq_true, beq_iff_eq, decide_eq_true_iff] using hb'
          exact hnot ⟨hcomp.1.1, hcomp.1.2, rfl, hcomp.2⟩
        unfold pullIteration
        simp [hb]
      · unfold pullIteration
        simp [hk]
  · intro hobs resps
    exact pullLoop_observer_attempts cfg resps db hobs
  · intro r name ua store
    unfold RocksDBReplicator.addDB DBMap.add
    by_cases hx : (r.db_map.get name).isSome <;> simp [hx]
  · intro name ua role store
    rfl
  · intro k acks st db' h
    exact Write_preserves_attempts cfg db k acks st db' h

/-- Witness for C6: on the fresh Follower with the test configuration
(threshold 1), one empty response triggers exactly one reset attempt. -/
theorem upstream_reset_gating_witness :
    (pullIteration cfgTest followerTest
        (PullResponse.updates 0)).resetUpstreamAttempts
      = followerTest.resetUpstreamAttempts + 1 :=
  (upstream_reset_gating cfgTest followerTest (PullResponse.updates 0)).1
    ⟨rfl, rfl, rfl, by decide⟩

end Replicator
